import Mathlib

/-!
Verification of the concurrent upload orchestrator of `immich-go`
(`src/main.go`) against its natural-language specification.

The shallow embedding below translates the relevant parts of `main.go`:

* the fingerprint-id derivation of line 147 (`stripSpaces.ReplaceAllString`,
  `filepath.Base`, `strconv.FormatInt`);
* the one-shot trip signal `tooManyServerErrors`, a Go `chan any` created at
  line 182, closed at line 215 and observed through `select` at lines 186-190
  (closing a closed Go channel panics; receiving on a closed channel succeeds
  immediately);
* the upload task closure of lines 202-231 (`Upload`);
* the dispatcher loop of lines 184-199 (`Run`), together with the worker
  pool, as a small-step interleaving semantics: the dispatcher and every
  submitted task advance by atomic steps chosen by an arbitrary schedule.

Machine integers: `info.Size()` is an `int64`; sizes are modelled as `Int`
(no arithmetic is performed on them, only decimal formatting). The shared
upload counter `mediaCount` is an `atomic.Int64` that is only incremented,
modelled as `Nat`.
-/

namespace ImmichGo

/-! ### Fingerprint identifiers (src/main.go lines 21 and 147) -/

/-- Whitespace class `\s` of Go's RE2 regular expressions: `[\t\n\f\r ]`.
Used by the pattern `\s+` of line 21. -/
def goIsSpace (c : Char) : Bool :=
  c = '\t' || c = '\n' || c = '\x0c' || c = '\r' || c = ' '

/-- The effect of `stripSpaces.ReplaceAllString(s, "")` (line 147): every
maximal run of whitespace is replaced by the empty string, i.e. every
whitespace character is removed. -/
def stripSpaces (s : String) : String :=
  String.mk (s.data.filter (fun c => !goIsSpace c))

/-- Go's `filepath.Base` on a slash-separated path (list-of-characters
form): empty path gives `"."`; otherwise trailing slashes are stripped, and
if nothing remains the path was all slashes and the result is `"/"`; else
the element after the last slash is returned. -/
def goBaseChars (l : List Char) : List Char :=
  if l = [] then ['.']
  else
    let t := (l.reverse.dropWhile (fun c => c = '/')).reverse
    if t = [] then ['/']
    else (t.reverse.takeWhile (fun c => c ≠ '/')).reverse

/-- Go's `filepath.Base` on strings. -/
def goBase (s : String) : String :=
  String.mk (goBaseChars s.data)

/-- The fingerprint id computed at line 147 of `src/main.go`:
`stripSpaces.ReplaceAllString(filepath.Base(d.Name()+"-"+strconv.FormatInt(info.Size(), 10)), "")`,
where `name` stands for `d.Name()`, the directory-entry (base) name of the
file, and `size` for `info.Size()`. -/
def fingerprintID (name : String) (size : Int) : String :=
  stripSpaces (goBase (name ++ "-" ++ toString size))

/-- The fingerprint id as the specification words it:
`strip_whitespace(baseName(path) + "-" + decimalByteSize)`, with `name`
already the base name of the path. Stated separately so that the code's
definition can be proved to refine it. -/
def fingerprintSpec (name : String) (size : Int) : String :=
  stripSpaces (name ++ "-" ++ toString size)

/-! ### The one-shot trip signal (src/main.go lines 70, 182, 186-190, 215)

`tooManyServerErrors` is a `chan any`. The only operations the program
performs on it are `close` (line 215) and a non-blocking readiness check in
`select` (lines 186-190). A Go channel with no senders is ready to receive
exactly when it is closed, and `close` on an already-closed channel panics. -/

/-- State of the `chan any` used as the trip signal. -/
inductive ChanState
  | opened
  | closed
deriving DecidableEq, Repr

/-- Closing the channel, `close(ch)` in Go: closing an open channel closes
it; closing an already-closed channel panics, modelled as `none`. -/
def closeChan : ChanState → Option ChanState
  | ChanState.opened => some ChanState.closed
  | ChanState.closed => none

/-- The dispatcher's observation of the trip signal: the
`case <-app.tooManyServerErrors` branch of the `select` at line 187 is ready
exactly when the channel is closed. -/
def isTripped : ChanState → Bool
  | ChanState.opened => false
  | ChanState.closed => true

/-! ### Upload outcomes, remote results and observable events -/

/-- Result of the remote `app.Immich.AssetUpload` call (line 209), as
classified by the `errors.Is` chain of lines 212-218: success, a
`LocalFileError`, an `UnsupportedMedia` error, a `TooManyInternalError`, or
any other error (with its message). -/
inductive UploadResult
  | ok
  | localFileError
  | unsupportedMedia
  | tooManyInternalError
  | otherError (msg : String)
deriving DecidableEq, Repr

/-- The outcome of one candidate asset, in the specification's vocabulary. -/
inductive Outcome
  | uploaded
  | skippedAlreadyClaimed
  | skippedUnsupported
  | failedFatal
  | failedOther
deriving DecidableEq, Repr

/-- Observable events of the run, in execution order: log lines and the
atomic operations on the shared registry, the remote service and the trip
channel. `evFinalReport` is the event the specification describes (a final
upload-counter report after the drain); the code never emits it. -/
inductive Ev
  | evAlreadyUploadedWalk (path : String)
  | evSkipAlready (path : String)
  | evSubmit (id path : String)
  | evTooMany
  | evRegCheck (id : String) (res : Bool)
  | evTaskSkip (path : String)
  | evRegClaim (id : String)
  | evRemoteCall (id path : String)
  | evWarnUnsupported (path : String)
  | evTrip
  | evErrOther (path msg : String)
  | evUploadedLog (path : String) (count : Nat)
  | evFinalReport (count : Nat)
deriving DecidableEq, Repr

/-- Is the event the submission of a task to the worker pool? -/
def Ev.isSubmit : Ev → Bool
  | Ev.evSubmit _ _ => true
  | _ => false

/-- Is the event a "skipped because already uploaded" log line (line 149,
line 192 or line 205)? -/
def Ev.isSkipLog : Ev → Bool
  | Ev.evAlreadyUploadedWalk _ => true
  | Ev.evSkipAlready _ => true
  | Ev.evTaskSkip _ => true
  | _ => false

/-- Is the event an invocation of the remote upload call? -/
def Ev.isRemoteCall : Ev → Bool
  | Ev.evRemoteCall _ _ => true
  | _ => false

/-- Is the event a successful-upload log line (line 224)? -/
def Ev.isUploadedLog : Ev → Bool
  | Ev.evUploadedLog _ _ => true
  | _ => false

/-- Is the event a final upload-counter report after the drain? -/
def Ev.isFinalReport : Ev → Bool
  | Ev.evFinalReport _ => true
  | _ => false

/-- Is the event one the dispatcher emits when it visits a candidate — a
submission to the pool, a skip log of the asset loop, or a skip log of the
indexing walk? -/
def Ev.isDispatchVisit : Ev → Bool
  | Ev.evSubmit _ _ => true
  | Ev.evSkipAlready _ => true
  | Ev.evAlreadyUploadedWalk _ => true
  | _ => false

/-- True iff no remote call occurs in the trace before a claim of `id` on
the registry: every `evRemoteCall` in the list is preceded by an
`evRegClaim id`. -/
def claimBeforeRemote (id : String) : List Ev → Bool
  | [] => true
  | Ev.evRemoteCall _ _ :: _ => false
  | Ev.evRegClaim i :: rest =>
      if i = id then true else claimBeforeRemote id rest
  | _ :: rest => claimBeforeRemote id rest

/-- Modelled from the spec: `immich.StringList` (package `immich`, not under
`src/`) is the concurrency-safe dedup registry; its `Includes` operation is
an atomic membership check. -/
abbrev regIncludes (reg : List String) (id : String) : Prop := id ∈ reg

/-- Modelled from the spec: `Push` of `immich.StringList` (package `immich`,
not under `src/`) atomically inserts an id; the registry has no removal
operation. -/
abbrev regPush (reg : List String) (id : String) : List String := reg ++ [id]

/-! ### The upload task (src/main.go lines 202-231)

`Upload` pushes a closure onto the worker pool; the closure re-checks the
registry, claims the id, calls the remote service and classifies the
result. `uploadTask` is that closure as a pure function of the asset, the
remote call's result, and the shared state it touches (`OnLineAssets`,
`tooManyServerErrors`, `mediaCount`). The filesystem handle `Fsys` is
opaque to the orchestrator and is dropped. `none` models a panic (close of
the already-closed trip channel, line 215). -/

/-- A candidate asset, as built at lines 152-156 (`Fsys` dropped). -/
structure LocalAsset where
  ID : String
  Path : String
deriving DecidableEq, Repr

/-- The shared mutable state touched by one upload task. -/
structure AppState where
  onLineAssets : List String
  breaker : ChanState
  mediaCount : Nat
deriving DecidableEq, Repr

/-- The body of the closure pushed by `Upload` (lines 203-230), returning
the new shared state, the asset's outcome and the trace of observable
events, or `none` on panic. -/
def uploadTask (a : LocalAsset) (remote : UploadResult) (s : AppState) :
    Option (AppState × Outcome × List Ev) :=
  if regIncludes s.onLineAssets a.ID then
    some (s, Outcome.skippedAlreadyClaimed,
      [Ev.evRegCheck a.ID true, Ev.evTaskSkip a.Path])
  else
    let s1 : AppState := { s with onLineAssets := regPush s.onLineAssets a.ID }
    let pre : List Ev :=
      [Ev.evRegCheck a.ID false, Ev.evRegClaim a.ID, Ev.evRemoteCall a.ID a.Path]
    match remote with
    | UploadResult.ok =>
        some ({ s1 with mediaCount := s1.mediaCount + 1 }, Outcome.uploaded,
          pre ++ [Ev.evUploadedLog a.Path (s1.mediaCount + 1)])
    | UploadResult.localFileError =>
        some (s1, Outcome.skippedUnsupported, pre ++ [Ev.evWarnUnsupported a.Path])
    | UploadResult.unsupportedMedia =>
        some (s1, Outcome.skippedUnsupported, pre ++ [Ev.evWarnUnsupported a.Path])
    | UploadResult.tooManyInternalError =>
        match closeChan s1.breaker with
        | some b =>
            some ({ s1 with breaker := b }, Outcome.failedFatal, pre ++ [Ev.evTrip])
        | none => none
    | UploadResult.otherError msg =>
        some (s1, Outcome.failedOther, pre ++ [Ev.evErrOther a.Path msg])

/-! ### The run: dispatcher loop, worker pool and interleaving semantics
(src/main.go lines 180-199 together with `Upload`)

The dispatcher (the `assetLoop` of lines 184-197) and the tasks submitted
to the worker pool run concurrently; each atomic step is either one
dispatcher loop iteration or one atomic action of one submitted task. A
schedule (an arbitrary list of step choices) selects the interleaving.

`Worker` itself is not part of `src/`. Modelled from the spec: the pool is
a set of concurrent executors consuming submitted tasks; `stop()` refuses
further submissions and blocks until every submitted task has finished, so
a run is finished when the loop has exited and the pool is empty. Any
pending task may be the next to take a step, which is faithful for a pool
of at least two workers.

A task performs three atomic actions on shared state, in the order fixed by
`uploadTask`: the registry re-check (line 204), the registry claim
(line 208), and the remote call with its classification (lines 209-229);
the remote call touches no shared state, and the classification's counter
increment and channel close are individually atomic, so they are taken as
one step. -/

/-- A candidate of the dispatcher loop: the asset plus the result the
remote service would return for it (the environment's choice, fixed per
asset). -/
structure Asset where
  id : String
  path : String
  remote : UploadResult
deriving DecidableEq, Repr

/-- Program counter of a submitted task: before the registry re-check,
before the registry claim, or before the remote call. -/
inductive Phase
  | pCheck
  | pClaim
  | pRemote
deriving DecidableEq, Repr

/-- A task in the worker pool. -/
structure Task where
  id : String
  path : String
  remote : UploadResult
  phase : Phase
deriving DecidableEq, Repr

/-- Global state of a run. `remaining` is the suffix of candidates the
dispatcher has not yet visited, `pool` the submitted and unfinished tasks,
`loopDone` whether the dispatcher has exited the `assetLoop` (after which
it calls `stop()`), and `panicked` whether an unrecovered panic occurred
(which crashes the whole process, freezing the model). -/
structure RunState where
  onLine : List String
  breaker : ChanState
  mediaCount : Nat
  remaining : List Asset
  pool : List Task
  loopDone : Bool
  panicked : Bool
  events : List Ev
deriving DecidableEq, Repr

/-- One iteration of the dispatcher's `assetLoop` (lines 184-197), or its
exit: the `select` observes the trip channel first (lines 186-189, breaking
out of the loop and leaving the remaining candidates unvisited); otherwise
the candidate is skipped if already in the registry (lines 191-194) or
submitted to the pool (line 195, `Upload`'s `Worker.Push`). -/
def dispatchStep (s : RunState) : RunState :=
  if s.panicked || s.loopDone then s
  else
    match s.remaining with
    | [] => { s with loopDone := true }
    | a :: rest =>
      if isTripped s.breaker then
        { s with loopDone := true, events := s.events ++ [Ev.evTooMany] }
      else if regIncludes s.onLine a.id then
        { s with remaining := rest, events := s.events ++ [Ev.evSkipAlready a.path] }
      else
        { s with remaining := rest,
                 pool := s.pool ++ [⟨a.id, a.path, a.remote, Phase.pCheck⟩],
                 events := s.events ++ [Ev.evSubmit a.id a.path] }

/-- One atomic action of the task at index `i` of the pool, following
`uploadTask` (lines 204-229): the registry re-check, the registry claim, or
the remote call plus classification. A completed task leaves the pool. The
close of an already-closed trip channel panics. -/
def taskStep (s : RunState) (i : Nat) : RunState :=
  if s.panicked then s
  else
    match s.pool[i]? with
    | none => s
    | some t =>
      match t.phase with
      | Phase.pCheck =>
        if regIncludes s.onLine t.id then
          { s with pool := s.pool.eraseIdx i,
                   events := s.events ++ [Ev.evRegCheck t.id true, Ev.evTaskSkip t.path] }
        else
          { s with pool := s.pool.set i { t with phase := Phase.pClaim },
                   events := s.events ++ [Ev.evRegCheck t.id false] }
      | Phase.pClaim =>
        { s with onLine := regPush s.onLine t.id,
                 pool := s.pool.set i { t with phase := Phase.pRemote },
                 events := s.events ++ [Ev.evRegClaim t.id] }
      | Phase.pRemote =>
        match t.remote with
        | UploadResult.ok =>
          { s with pool := s.pool.eraseIdx i,
                   mediaCount := s.mediaCount + 1,
                   events := s.events ++ [Ev.evRemoteCall t.id t.path,
                     Ev.evUploadedLog t.path (s.mediaCount + 1)] }
        | UploadResult.localFileError =>
          { s with pool := s.pool.eraseIdx i,
                   events := s.events ++ [Ev.evRemoteCall t.id t.path,
                     Ev.evWarnUnsupported t.path] }
        | UploadResult.unsupportedMedia =>
          { s with pool := s.pool.eraseIdx i,
                   events := s.events ++ [Ev.evRemoteCall t.id t.path,
                     Ev.evWarnUnsupported t.path] }
        | UploadResult.tooManyInternalError =>
          match closeChan s.breaker with
          | some b =>
            { s with pool := s.pool.eraseIdx i, breaker := b,
                     events := s.events ++ [Ev.evRemoteCall t.id t.path, Ev.evTrip] }
          | none =>
            { s with panicked := true,
                     events := s.events ++ [Ev.evRemoteCall t.id t.path] }
        | UploadResult.otherError msg =>
          { s with pool := s.pool.eraseIdx i,
                   events := s.events ++ [Ev.evRemoteCall t.id t.path,
                     Ev.evErrOther t.path msg] }

/-- A scheduling choice: one dispatcher iteration, or one step of the task
at the given pool index. -/
inductive Sched
  | disp
  | task (i : Nat)
deriving DecidableEq, Repr

/-- One scheduled step. -/
def stepOne (c : Sched) (s : RunState) : RunState :=
  match c with
  | Sched.disp => dispatchStep s
  | Sched.task i => taskStep s i

/-- Run a schedule from a state. -/
def run (sched : List Sched) (s : RunState) : RunState :=
  sched.foldl (fun st c => stepOne c st) s

/-- The initial run state: the registry seeded from
`GetUserAssetsByDeviceId` (line 121), the trip channel freshly made
(line 182), the counter zero, the full candidate list ahead of the
dispatcher, and an idle pool. -/
def initRun (seed : List String) (assets : List Asset) : RunState :=
  { onLine := seed, breaker := ChanState.opened, mediaCount := 0,
    remaining := assets, pool := [], loopDone := false, panicked := false,
    events := [] }

/-- Modelled from the spec: `stop()` of the `Worker` pool (not under
`src/`) blocks until every previously submitted task has finished, so a run
is finished when the dispatcher has exited the loop and the pool has
drained, without a panic. -/
def runFinished (s : RunState) : Bool :=
  s.loopDone && s.pool.isEmpty && !s.panicked

/-- What `Run` does after the loop (lines 198-199): `stop()` drains, then
`return err`, where `err` is `nil` on every path reaching line 199. `none`
means the process did not return normally (panic); `some none` means `Run`
returned the `nil` error. -/
def runReturn (s : RunState) : Option (Option String) :=
  if s.panicked then none
  else if runFinished s then some none
  else none

/-! ### The indexing walk (src/main.go lines 142-157)

During `fs.WalkDir`, each file entry gets its fingerprint id (line 147);
entries whose id is already known online are logged and not added to
`localAssets` (lines 148-151). `name` is `d.Name()`, the entry's base
name; `remoteOf` annotates each surviving candidate with the result the
remote service would later return for it. -/

/-- A file entry seen by the walk: its path, its directory-entry name and
its byte size. -/
structure FileEntry where
  path : String
  name : String
  size : Int
deriving DecidableEq, Repr

/-- The filter of lines 147-156, applied to the walked entries in order:
already-online entries are logged and dropped, the others become
candidates. -/
def indexAssets (onLine : List String) (remoteOf : String → UploadResult) :
    List FileEntry → List Asset × List Ev
  | [] => ([], [])
  | e :: rest =>
    let id := fingerprintID e.name e.size
    let (as, evs) := indexAssets onLine remoteOf rest
    if id ∈ onLine then (as, Ev.evAlreadyUploadedWalk e.path :: evs)
    else (⟨id, e.path, remoteOf e.path⟩ :: as, evs)

/-! ### Concrete inputs used by counterexamples and witnesses -/

/-- Two copies of this candidate model Scenario B's two identical candidates
`b.jpg` of size 200 (fingerprint `b.jpg-200`), both accepted by the remote. -/
def raceAsset : Asset :=
  ⟨"b.jpg-200", "b.jpg", UploadResult.ok⟩

/-- A schedule interleaving the two tasks for `raceAsset`: both are
submitted, both pass the registry re-check before either claims, then both
claim and both upload. -/
def raceSched : List Sched :=
  [Sched.disp, Sched.disp, Sched.task 0, Sched.task 1, Sched.task 0,
   Sched.task 1, Sched.task 0, Sched.task 0]

/-- A schedule running the first task for `raceAsset` to completion before
the second takes any step. -/
def serialSched : List Sched :=
  [Sched.disp, Sched.disp, Sched.task 0, Sched.task 0, Sched.task 0,
   Sched.task 0]

/-- A candidate whose upload the remote answers with `TooManyInternalError`. -/
def overloadAsset : Asset :=
  ⟨"c.jpg-3", "c.jpg", UploadResult.tooManyInternalError⟩

/-- A healthy candidate submitted after `overloadAsset` in Scenario C. -/
def afterAsset : Asset :=
  ⟨"d.jpg-4", "d.jpg", UploadResult.ok⟩

/-- A schedule in which `overloadAsset` is dispatched and trips the breaker
before the dispatcher examines `afterAsset`. -/
def breakerSched : List Sched :=
  [Sched.disp, Sched.task 0, Sched.task 0, Sched.task 0, Sched.disp]

/-- A task that has just claimed its id and whose remote upload will fail
with an unclassified error. -/
def failTask : Task :=
  ⟨"g.jpg-7", "g.jpg", UploadResult.otherError "boom", Phase.pClaim⟩

/-- A run state holding only `failTask` in the pool. -/
def failState : RunState :=
  { onLine := [], breaker := ChanState.opened, mediaCount := 0,
    remaining := [], pool := [failTask], loopDone := false, panicked := false,
    events := [] }

/-! ### Theorems -/

/-- Whitespace characters are removed from the fingerprint's raw material;
auxiliary fact: a decimal digit is neither a slash nor matched as
whitespace. -/
theorem digitChar_isDigit {n : Nat} (h : n < 10) :
    (Nat.digitChar n).isDigit = true := by
  interval_cases n <;> decide

/-- Every character produced by `Nat.toDigitsCore` in base 10 is a decimal
digit, provided the accumulator holds only digits. -/
theorem toDigitsCore_digits :
    ∀ (fuel n : Nat) (ds : List Char), (∀ c ∈ ds, c.isDigit = true) →
      ∀ c ∈ Nat.toDigitsCore 10 fuel n ds, c.isDigit = true := by
  intro fuel
  induction fuel with
  | zero =>
    intro n ds h c hc
    simpa [Nat.toDigitsCore] using h c (by simpa [Nat.toDigitsCore] using hc)
  | succ f ih =>
    intro n ds h c hc
    have hmod : n % 10 < 10 := Nat.mod_lt _ (by decide)
    have hcons : ∀ x ∈ Nat.digitChar (n % 10) :: ds, x.isDigit = true := by
      intro x hx
      rcases List.mem_cons.mp hx with hx | hx
      · subst hx; exact digitChar_isDigit hmod
      · exact h x hx
    simp only [Nat.toDigitsCore] at hc
    split at hc
    · exact hcons c hc
    · exact ih (n / 10) _ hcons c hc

/-- Every character of `Nat.repr n` is a decimal digit. -/
theorem nat_repr_digits (n : Nat) : ∀ c ∈ (Nat.repr n).data, c.isDigit = true := by
  intro c hc
  exact toDigitsCore_digits (n + 1) n [] (by simp) c hc

/-- Every character of the decimal rendering of an `Int` is a digit or a
minus sign. -/
theorem int_toString_chars (i : Int) :
    ∀ c ∈ (toString i).data, c.isDigit = true ∨ c = '-' := by
  intro c hc
  cases i with
  | ofNat m =>
    exact Or.inl (nat_repr_digits m c hc)
  | negSucc m =>
    have : (toString (Int.negSucc m)).data = '-' :: (Nat.repr (m + 1)).data := by
      rfl
    rw [this] at hc
    rcases List.mem_cons.mp hc with hc | hc
    · exact Or.inr hc
    · exact Or.inl (nat_repr_digits (m + 1) c hc)

/-- On a nonempty character list without slash, Go's `filepath.Base` is the
identity. -/
theorem goBaseChars_of_no_slash {l : List Char} (h1 : l ≠ [])
    (h2 : ∀ c ∈ l, c ≠ '/') : goBaseChars l = l := by
  unfold goBaseChars
  rw [if_neg h1]
  have hd : l.reverse.dropWhile (fun c => c = '/') = l.reverse := by
    cases hrev : l.reverse with
    | nil => rfl
    | cons c t =>
      have hc : c ∈ l := by
        rw [← List.mem_reverse, hrev]; exact List.mem_cons_self _ _
      simp [List.dropWhile_cons, h2 c hc]
  rw [hd, List.reverse_reverse]
  rw [if_neg h1]
  have ht : l.reverse.takeWhile (fun c => decide (c ≠ '/')) = l.reverse := by
    rw [List.takeWhile_eq_self_iff]
    intro x hx
    simp [h2 x (List.mem_reverse.mp hx)]
  rw [ht, List.reverse_reverse]

/-- C8: the fingerprint id of a local file is the whitespace-stripped
concatenation of its directory-entry (base) name, a hyphen, and its byte
size in decimal; the derivation is deterministic, so two files with the
same base name and size receive the same id. The hypotheses record the
filesystem invariants on a directory-entry name: nonempty and free of
slashes. -/
theorem fingerprint_name_size (name : String) (size : Int)
    (h1 : name ≠ "") (h2 : ∀ c ∈ name.data, c ≠ '/') :
    fingerprintID name size = fingerprintSpec name size ∧
    (∀ (name2 : String) (size2 : Int), name2 = name → size2 = size →
      fingerprintID name2 size2 = fingerprintID name size) := by
  constructor
  · unfold fingerprintID fingerprintSpec goBase
    have hdata : (name ++ "-" ++ toString size).data
        = name.data ++ '-' :: (toString size).data := by
      rw [String.data_append, String.data_append, List.append_assoc]
      rfl
    have hne : (name ++ "-" ++ toString size).data ≠ [] := by
      rw [hdata]; simp
    have hns : ∀ c ∈ (name ++ "-" ++ toString size).data, c ≠ '/' := by
      rw [hdata]
      intro c hc
      rcases List.mem_append.mp hc with hc | hc
      · exact h2 c hc
      · rcases List.mem_cons.mp hc with hc | hc
        · subst hc; decide
        · rcases int_toString_chars size c hc with hd | hd
          · intro hcontra; subst hcontra; simp at hd
          · subst hd; decide
    rw [goBaseChars_of_no_slash hne hns]
  · intro name2 size2 hn hs
    subst hn; subst hs; rfl

/-- C8 witness: the file `a.jpg` of 100 bytes receives the fingerprint
`a.jpg-100`, equal under both the code's derivation and the spec's. -/
theorem fingerprint_name_size_witness :
    fingerprintID "a.jpg" 100 = fingerprintSpec "a.jpg" 100 ∧
    fingerprintID "a.jpg" 100 = "a.jpg-100" :=
  ⟨(fingerprint_name_size "a.jpg" 100 (by decide) (by decide)).1, by decide⟩

/-- Helper: a dispatcher step never writes the trip channel. -/
theorem dispatchStep_breaker (s : RunState) :
    (dispatchStep s).breaker = s.breaker := by
  unfold dispatchStep
  split
  · rfl
  · split
    · rfl
    · split
      · rfl
      · split <;> rfl

/-- Helper: once the trip channel is closed, no step of the run reopens it. -/
theorem stepOne_tripped_mono (c : Sched) (s : RunState)
    (h : isTripped s.breaker = true) : isTripped (stepOne c s).breaker = true := by
  have hb : s.breaker = ChanState.closed := by
    cases hs : s.breaker
    · rw [hs] at h; exact absurd h (by decide)
    · rfl
  cases c with
  | disp => rw [stepOne, dispatchStep_breaker, hb]; rfl
  | task i =>
    show isTripped (taskStep s i).breaker = true
    unfold taskStep
    split
    · rw [hb]; rfl
    · split
      · rw [hb]; rfl
      · split
        · split
          · rw [hb]; rfl
          · rw [hb]; rfl
        · rw [hb]; rfl
        · split
          · rw [hb]; rfl
          · rw [hb]; rfl
          · rw [hb]; rfl
          · simp [hb, closeChan, isTripped]
          · rw [hb]; rfl

/-- Helper: the trip channel stays closed along any schedule. -/
theorem run_tripped_mono (sched : List Sched) (s : RunState)
    (h : isTripped s.breaker = true) : isTripped (run sched s).breaker = true := by
  induction sched generalizing s with
  | nil => exact h
  | cons c cs ih =>
    rw [run, List.foldl_cons]
    exact ih (stepOne c s) (stepOne_tripped_mono c s h)

/-- C1 counterexample: the first `close` of the trip channel flips it to
tripped, but a second `close` is not a no-op — closing an already-closed Go
channel panics (line 215 has no guard). -/
theorem trip_second_close_panics :
    closeChan ChanState.opened = some ChanState.closed ∧
    closeChan ChanState.closed = none := by
  decide

/-- C1 amended: the first trip flips the observable state to tripped, and
the tripped state is irreversible — no trip operation and no step of the
run ever returns the channel to not-tripped; however, a trip after the
first is not a harmless no-op: it panics (close of a closed channel). -/
theorem trip_flips_once_and_panics_after :
    (closeChan ChanState.opened = some ChanState.closed) ∧
    (∀ s s2, closeChan s = some s2 → isTripped s2 = true) ∧
    (∀ (c : Sched) (s : RunState), isTripped s.breaker = true →
      isTripped (stepOne c s).breaker = true) ∧
    (closeChan ChanState.closed = none) := by
  refine ⟨rfl, ?_, stepOne_tripped_mono, rfl⟩
  intro s s2 h
  cases s with
  | opened =>
    simp only [closeChan, Option.some.injEq] at h
    rw [← h]; rfl
  | closed => exact absurd h (by simp [closeChan])

/-- C1 witness: instantiating the amended theorem at the concrete
transition from not-tripped to tripped. -/
theorem trip_flips_once_witness : isTripped ChanState.closed = true :=
  trip_flips_once_and_panics_after.2.1 ChanState.opened ChanState.closed rfl

/-- C5: an upload task first re-checks registry membership; if the id is
present it returns outcome `SkippedAlreadyClaimed` after the informational
log, with the shared state untouched and no remote call in its trace;
otherwise every trace it can produce claims the id on the registry strictly
before the remote upload call. -/
theorem task_recheck_then_claim_before_remote (a : LocalAsset)
    (remote : UploadResult) (s : AppState) (h : a.ID ∈ s.onLineAssets) :
    uploadTask a remote s = some (s, Outcome.skippedAlreadyClaimed,
      [Ev.evRegCheck a.ID true, Ev.evTaskSkip a.Path]) ∧
    (∀ (s1 s2 : AppState) (o : Outcome) (t : List Ev),
      uploadTask a remote s1 = some (s2, o, t) →
      claimBeforeRemote a.ID t = true) := by
  constructor
  · simp [uploadTask, h]
  · intro s1 s2 o t hrun
    by_cases hm : a.ID ∈ s1.onLineAssets
    · simp only [uploadTask, if_pos hm, Option.some.injEq, Prod.mk.injEq] at hrun
      rw [← hrun.2.2]
      simp [claimBeforeRemote]
    · cases remote with
      | ok =>
        simp only [uploadTask, if_neg hm, Option.some.injEq, Prod.mk.injEq] at hrun
        rw [← hrun.2.2]; simp [claimBeforeRemote]
      | localFileError =>
        simp only [uploadTask, if_neg hm, Option.some.injEq, Prod.mk.injEq] at hrun
        rw [← hrun.2.2]; simp [claimBeforeRemote]
      | unsupportedMedia =>
        simp only [uploadTask, if_neg hm, Option.some.injEq, Prod.mk.injEq] at hrun
        rw [← hrun.2.2]; simp [claimBeforeRemote]
      | tooManyInternalError =>
        simp only [uploadTask, if_neg hm] at hrun
        rcases hclose : closeChan s1.breaker with _ | b
        · rw [hclose] at hrun; exact absurd hrun (by simp)
        · rw [hclose] at hrun
          simp only [Option.some.injEq, Prod.mk.injEq] at hrun
          rw [← hrun.2.2]
          simp [claimBeforeRemote]
      | otherError msg =>
        simp only [uploadTask, if_neg hm, Option.some.injEq, Prod.mk.injEq] at hrun
        rw [← hrun.2.2]; simp [claimBeforeRemote]

/-- C5 witness: a task whose id is already claimed skips without a remote
call, and the claim-before-remote discipline holds on a concrete trace. -/
theorem task_recheck_witness :
    uploadTask ⟨"x-1", "x"⟩ UploadResult.ok ⟨["x-1"], ChanState.opened, 0⟩ =
      some (⟨["x-1"], ChanState.opened, 0⟩, Outcome.skippedAlreadyClaimed,
        [Ev.evRegCheck "x-1" true, Ev.evTaskSkip "x"]) :=
  (task_recheck_then_claim_before_remote ⟨"x-1", "x"⟩ UploadResult.ok
    ⟨["x-1"], ChanState.opened, 0⟩ (by decide)).1

/-- C6 counterexample: an error can escape an upload task as a panic — if
the breaker is already tripped, a second systemic-overload error makes the
task close the already-closed channel, which panics. -/
theorem second_overload_panics :
    uploadTask ⟨"e.jpg-5", "e.jpg"⟩ UploadResult.tooManyInternalError
      ⟨[], ChanState.closed, 0⟩ = none := by
  decide

/-- C6 amended: a failed remote upload is classified into exactly one
task-local behavior by the `errors.Is` chain — local-read and
unsupported-media errors log a warning and end as `SkippedUnsupported`
with breaker and counter untouched; a systemic-overload error closes the
trip channel and ends as `FailedFatal` when the breaker is untripped, but
panics (escaping the task) when the breaker is already tripped; any other
error logs the asset path and message and ends as `FailedOther` with no
broader effect. -/
theorem failure_classification (a : LocalAsset) (reg : List String)
    (b : ChanState) (cnt : Nat) (msg : String) (h : a.ID ∉ reg) :
    (uploadTask a UploadResult.localFileError ⟨reg, b, cnt⟩ =
      some (⟨reg ++ [a.ID], b, cnt⟩, Outcome.skippedUnsupported,
        [Ev.evRegCheck a.ID false, Ev.evRegClaim a.ID,
         Ev.evRemoteCall a.ID a.Path, Ev.evWarnUnsupported a.Path])) ∧
    (uploadTask a UploadResult.unsupportedMedia ⟨reg, b, cnt⟩ =
      some (⟨reg ++ [a.ID], b, cnt⟩, Outcome.skippedUnsupported,
        [Ev.evRegCheck a.ID false, Ev.evRegClaim a.ID,
         Ev.evRemoteCall a.ID a.Path, Ev.evWarnUnsupported a.Path])) ∧
    (uploadTask a UploadResult.tooManyInternalError ⟨reg, b, cnt⟩ =
      (closeChan b).map (fun b2 => (⟨reg ++ [a.ID], b2, cnt⟩,
        Outcome.failedFatal,
        [Ev.evRegCheck a.ID false, Ev.evRegClaim a.ID,
         Ev.evRemoteCall a.ID a.Path, Ev.evTrip]))) ∧
    (uploadTask a UploadResult.tooManyInternalError ⟨reg, ChanState.closed, cnt⟩
      = none) ∧
    (uploadTask a (UploadResult.otherError msg) ⟨reg, b, cnt⟩ =
      some (⟨reg ++ [a.ID], b, cnt⟩, Outcome.failedOther,
        [Ev.evRegCheck a.ID false, Ev.evRegClaim a.ID,
         Ev.evRemoteCall a.ID a.Path, Ev.evErrOther a.Path msg])) := by
  refine ⟨?_, ?_, ?_, ?_, ?_⟩
  · simp [uploadTask, h]
  · simp [uploadTask, h]
  · cases b <;> simp [uploadTask, h, closeChan]
  · simp [uploadTask, h, closeChan]
  · simp [uploadTask, h]

/-- C6 witness: instantiating the classification at a concrete asset with
an untripped breaker; the systemic-overload branch trips the breaker. -/
theorem failure_classification_witness :
    uploadTask ⟨"f.jpg-6", "f.jpg"⟩ UploadResult.tooManyInternalError
      ⟨[], ChanState.opened, 0⟩ =
      (closeChan ChanState.opened).map (fun b2 =>
        (⟨[] ++ ["f.jpg-6"], b2, 0⟩, Outcome.failedFatal,
         [Ev.evRegCheck "f.jpg-6" false, Ev.evRegClaim "f.jpg-6",
          Ev.evRemoteCall "f.jpg-6" "f.jpg", Ev.evTrip])) :=
  (failure_classification ⟨"f.jpg-6", "f.jpg"⟩ [] ChanState.opened 0 "m"
    (by decide)).2.2.1

/-- Helper: unfolding one step of a scheduled run. -/
theorem run_cons (c : Sched) (cs : List Sched) (s : RunState) :
    run (c :: cs) s = run cs (stepOne c s) := rfl

/-- Helper: no single step removes an id from the registry. -/
theorem stepOne_onLine_mono (c : Sched) (s : RunState) (x : String)
    (hx : x ∈ s.onLine) : x ∈ (stepOne c s).onLine := by
  cases c with
  | disp =>
    show x ∈ (dispatchStep s).onLine
    unfold dispatchStep
    repeat' split
    all_goals exact hx
  | task i =>
    show x ∈ (taskStep s i).onLine
    unfold taskStep
    repeat' split
    all_goals first
      | exact hx
      | exact List.mem_append_left _ hx

/-- Helper: no schedule removes an id from the registry. -/
theorem run_onLine_mono (sched : List Sched) (s : RunState) (x : String)
    (hx : x ∈ s.onLine) : x ∈ (run sched s).onLine := by
  induction sched generalizing s with
  | nil => exact hx
  | cons c cs ih =>
    rw [run_cons]
    exact ih (stepOne c s) (stepOne_onLine_mono c s x hx)

/-- C9: the registry's membership only grows during a run — along any
schedule every id present stays present (both the dispatcher's and the
tasks' registry operations are reads or insertions, never removals), and
the upload task itself can only extend the registry. -/
theorem registry_only_grows (sched : List Sched) (s : RunState) (x : String)
    (hx : x ∈ s.onLine) :
    x ∈ (run sched s).onLine ∧
    (∀ (a : LocalAsset) (r : UploadResult) (st st2 : AppState) (o : Outcome)
      (t : List Ev) (y : String), uploadTask a r st = some (st2, o, t) →
      y ∈ st.onLineAssets → y ∈ st2.onLineAssets) := by
  refine ⟨run_onLine_mono sched s x hx, ?_⟩
  intro a r st st2 o t y hrun hy
  by_cases hm : a.ID ∈ st.onLineAssets
  · simp only [uploadTask, if_pos hm, Option.some.injEq, Prod.mk.injEq] at hrun
    rw [← hrun.1]; exact hy
  · cases r with
    | ok =>
      simp only [uploadTask, if_neg hm, Option.some.injEq, Prod.mk.injEq] at hrun
      rw [← hrun.1]; exact List.mem_append_left _ hy
    | localFileError =>
      simp only [uploadTask, if_neg hm, Option.some.injEq, Prod.mk.injEq] at hrun
      rw [← hrun.1]; exact List.mem_append_left _ hy
    | unsupportedMedia =>
      simp only [uploadTask, if_neg hm, Option.some.injEq, Prod.mk.injEq] at hrun
      rw [← hrun.1]; exact List.mem_append_left _ hy
    | tooManyInternalError =>
      simp only [uploadTask, if_neg hm] at hrun
      rcases hclose : closeChan st.breaker with _ | b
      · rw [hclose] at hrun; exact absurd hrun (by simp)
      · rw [hclose] at hrun
        simp only [Option.some.injEq, Prod.mk.injEq] at hrun
        rw [← hrun.1]; exact List.mem_append_left _ hy
    | otherError msg =>
      simp only [uploadTask, if_neg hm, Option.some.injEq, Prod.mk.injEq] at hrun
      rw [← hrun.1]; exact List.mem_append_left _ hy

/-- C9 witness: a seeded id survives a concrete schedule that checks,
claims and uploads another asset. -/
theorem registry_only_grows_witness :
    "seed-1" ∈ (run [Sched.disp, Sched.task 0, Sched.task 0, Sched.task 0]
      (initRun ["seed-1"] [afterAsset])).onLine :=
  (registry_only_grows [Sched.disp, Sched.task 0, Sched.task 0, Sched.task 0]
    (initRun ["seed-1"] [afterAsset]) "seed-1" (by decide)).1

/-- Helper: after the breaker has tripped, a single step adds no
dispatcher-visit event and leaves the unvisited candidates untouched. -/
theorem stepOne_after_trip (c : Sched) (s : RunState)
    (h : isTripped s.breaker = true) :
    ∃ tl, (stepOne c s).events = s.events ++ tl ∧
      tl.all (fun e => !e.isDispatchVisit) = true ∧
      (stepOne c s).remaining = s.remaining := by
  have hb : s.breaker = ChanState.closed := by
    cases hs : s.breaker
    · rw [hs] at h; exact absurd h (by decide)
    · rfl
  cases c with
  | disp =>
    simp only [stepOne]
    unfold dispatchStep
    repeat' split
    all_goals first
      | exact ⟨[], (List.append_nil _).symm, rfl, rfl⟩
      | exact ⟨_, rfl, rfl, rfl⟩
  | task i =>
    simp only [stepOne]
    unfold taskStep
    repeat' split
    all_goals first
      | exact ⟨[], (List.append_nil _).symm, rfl, rfl⟩
      | exact ⟨_, rfl, rfl, rfl⟩

/-- Helper: after the breaker has tripped, no schedule adds a
dispatcher-visit event or touches the unvisited candidates. -/
theorem run_after_trip (sched : List Sched) (s : RunState)
    (h : isTripped s.breaker = true) :
    ∃ tl, (run sched s).events = s.events ++ tl ∧
      tl.all (fun e => !e.isDispatchVisit) = true ∧
      (run sched s).remaining = s.remaining := by
  induction sched generalizing s with
  | nil => exact ⟨[], (List.append_nil _).symm, rfl, rfl⟩
  | cons c cs ih =>
    obtain ⟨tl1, he1, ha1, hr1⟩ := stepOne_after_trip c s h
    obtain ⟨tl2, he2, ha2, hr2⟩ := ih (stepOne c s) (stepOne_tripped_mono c s h)
    refine ⟨tl1 ++ tl2, ?_, ?_, ?_⟩
    · rw [run_cons, he2, he1, List.append_assoc]
    · simp only [List.all_append, ha1, ha2, Bool.and_self]
    · rw [run_cons, hr2, hr1]

/-- C3: once the breaker's tripped state is observable to the dispatcher,
no further candidate is ever visited — the next dispatcher step exits the
loop at once without submitting, and along any continuation of the run the
unvisited candidates stay unvisited, are never submitted to the pool and
never appear in a skip log. -/
theorem dispatcher_stops_after_trip (sched : List Sched) (s : RunState)
    (h : isTripped s.breaker = true) :
    (∃ tl, (run sched s).events = s.events ++ tl ∧
      tl.all (fun e => !e.isDispatchVisit) = true) ∧
    (run sched s).remaining = s.remaining ∧
    (s.panicked = false → s.loopDone = false →
      (dispatchStep s).loopDone = true ∧ (dispatchStep s).pool = s.pool) := by
  obtain ⟨tl, he, ha, hr⟩ := run_after_trip sched s h
  refine ⟨⟨tl, he, ha⟩, hr, ?_⟩
  intro hp hl
  cases hrem : s.remaining <;> simp [dispatchStep, hp, hl, h, hrem]

/-- C3 witness: with the breaker already tripped, one dispatcher step on a
nonempty candidate list leaves the candidate unvisited. -/
theorem dispatcher_stops_witness :
    (run [Sched.disp] ⟨[], ChanState.closed, 0, [afterAsset], [], false, false,
      []⟩).remaining = [afterAsset] :=
  (dispatcher_stops_after_trip [Sched.disp] ⟨[], ChanState.closed, 0,
    [afterAsset], [], false, false, []⟩ rfl).2.1

/-- Helper: one step preserves the equality between the upload counter and
the number of per-upload success logs. -/
theorem stepOne_count_logs (c : Sched) (s : RunState)
    (h : s.mediaCount = (s.events.filter (fun e => e.isUploadedLog)).length) :
    (stepOne c s).mediaCount =
      ((stepOne c s).events.filter (fun e => e.isUploadedLog)).length := by
  cases c with
  | disp =>
    simp only [stepOne]
    unfold dispatchStep
    repeat' split
    all_goals simp [List.filter_append, Ev.isUploadedLog, h]
  | task i =>
    simp only [stepOne]
    unfold taskStep
    repeat' split
    all_goals simp [List.filter_append, Ev.isUploadedLog, h]

/-- Helper: along any schedule the upload counter equals the number of
per-upload success logs. -/
theorem run_count_logs (sched : List Sched) (s : RunState)
    (h : s.mediaCount = (s.events.filter (fun e => e.isUploadedLog)).length) :
    (run sched s).mediaCount =
      ((run sched s).events.filter (fun e => e.isUploadedLog)).length := by
  induction sched generalizing s with
  | nil => exact h
  | cons c cs ih =>
    rw [run_cons]
    exact ih (stepOne c s) (stepOne_count_logs c s h)

/-- C4 counterexample: a breaker-terminated run drains the pool and
returns without error, but the code never emits a final upload-counter
report after the drain — the claimed "then reports the final upload
counter" step does not exist. -/
theorem no_final_counter_report :
    runFinished (run breakerSched (initRun [] [overloadAsset, afterAsset]))
      = true ∧
    runReturn (run breakerSched (initRun [] [overloadAsset, afterAsset]))
      = some none ∧
    (run breakerSched (initRun [] [overloadAsset, afterAsset])).events.all
      (fun e => !e.isFinalReport) = true := by
  decide

/-- C4 amended: when the candidate stream is exhausted the dispatcher
exits the loop (and `stop()` drains), and a finished run — including a
breaker-terminated one — returns the `nil` error rather than a process
failure; the upload counter is reported only through the per-upload
success logs, whose number always equals the counter, with no final
summary report after the drain. -/
theorem drain_then_nil_return (sched : List Sched) (seed : List String)
    (assets : List Asset) (st : RunState) (hp : st.panicked = false)
    (hl : st.loopDone = false) (hr : st.remaining = []) :
    (run sched (initRun seed assets)).mediaCount =
      (((run sched (initRun seed assets)).events.filter
        (fun e => e.isUploadedLog)).length) ∧
    (runFinished (run sched (initRun seed assets)) = true →
      runReturn (run sched (initRun seed assets)) = some none) ∧
    ((dispatchStep st).loopDone = true ∧ (dispatchStep st).pool = st.pool) := by
  refine ⟨run_count_logs sched (initRun seed assets) rfl, ?_, ?_⟩
  · intro hfin
    have hpan : (run sched (initRun seed assets)).panicked = false := by
      have := hfin
      simp only [runFinished, Bool.and_eq_true, Bool.not_eq_true'] at this
      exact this.2
    simp [runReturn, hpan, hfin]
  · simp [dispatchStep, hp, hl, hr]

/-- C4 witness: the invariant and the loop-exit behavior at a concrete
finished run with one successful upload. -/
theorem drain_then_nil_return_witness :
    (run [Sched.disp, Sched.task 0, Sched.task 0, Sched.task 0, Sched.disp]
      (initRun [] [afterAsset])).mediaCount =
      (((run [Sched.disp, Sched.task 0, Sched.task 0, Sched.task 0, Sched.disp]
        (initRun [] [afterAsset])).events.filter
          (fun e => e.isUploadedLog)).length) :=
  (drain_then_nil_return
    [Sched.disp, Sched.task 0, Sched.task 0, Sched.task 0, Sched.disp]
    [] [afterAsset] (initRun [] []) rfl rfl rfl).1

/-- C2 counterexample: two tasks for the same fingerprint, both submitted
while the registry lacked the id, can interleave so that both registry
re-checks precede both claims — then both tasks reach the remote upload
call (two remote-call events, counter 2, no skip), so the membership check
and insertion are not atomic as a pair. -/
theorem concurrent_same_id_both_upload :
    ((run raceSched (initRun [] [raceAsset, raceAsset])).events.filter
      (fun e => e.isRemoteCall)).length = 2 ∧
    (run raceSched (initRun [] [raceAsset, raceAsset])).mediaCount = 2 ∧
    ((run raceSched (initRun [] [raceAsset, raceAsset])).events.filter
      (fun e => e.isSkipLog)).length = 0 := by
  decide

/-- C2 amended: the exactly-one-reaches-remote outcome holds whenever the
two tasks do not interleave between the membership re-check and the claim:
if the first task runs to completion before the second starts, the first
claims and uploads (one remote call, counter 1) and the second observes
the claim and returns with the already-claimed skip; under adversarial
interleaving both tasks can reach the remote call. -/
theorem serialized_same_id_one_uploads (id path : String) (seed : List String)
    (h : id ∉ seed) :
    (run serialSched (initRun seed
      [⟨id, path, UploadResult.ok⟩, ⟨id, path, UploadResult.ok⟩])).events =
      [Ev.evSubmit id path, Ev.evSubmit id path, Ev.evRegCheck id false,
       Ev.evRegClaim id, Ev.evRemoteCall id path, Ev.evUploadedLog path 1,
       Ev.evRegCheck id true, Ev.evTaskSkip path] ∧
    (run serialSched (initRun seed
      [⟨id, path, UploadResult.ok⟩, ⟨id, path, UploadResult.ok⟩])).mediaCount
      = 1 ∧
    (run serialSched (initRun seed
      [⟨id, path, UploadResult.ok⟩, ⟨id, path, UploadResult.ok⟩])).pool
      = [] := by
  refine ⟨?_, ?_, ?_⟩ <;>
    simp [run, serialSched, stepOne, dispatchStep, taskStep, initRun,
      isTripped, closeChan, h, List.set, List.eraseIdx]

/-- C2 witness: the serialized outcome at the concrete Scenario B pair. -/
theorem serialized_same_id_witness :
    (run serialSched (initRun [] [raceAsset, raceAsset])).mediaCount = 1 :=
  (serialized_same_id_one_uploads "b.jpg-200" "b.jpg" [] (by decide)).2.1

/-- C7: a candidate whose fingerprint id is already in the registry when
examined is only logged and skipped — during the indexing walk it is
logged as already uploaded and not added to the candidate list, and in the
asset loop the dispatcher step consumes it with a skip log, leaving the
pool, the counter, the registry and the breaker unchanged, so no task and
no remote call ever exists for it. -/
theorem known_id_skipped_without_submit (onLine : List String)
    (remoteOf : String → UploadResult) (e : FileEntry) (rest : List FileEntry)
    (h1 : fingerprintID e.name e.size ∈ onLine)
    (s : RunState) (a : Asset) (arest : List Asset) (hp : s.panicked = false)
    (hl : s.loopDone = false) (hb : isTripped s.breaker = false)
    (hr : s.remaining = a :: arest) (ha : a.id ∈ s.onLine) :
    indexAssets onLine remoteOf (e :: rest) =
      ((indexAssets onLine remoteOf rest).1,
       Ev.evAlreadyUploadedWalk e.path :: (indexAssets onLine remoteOf rest).2) ∧
    dispatchStep s = { s with
                       remaining := arest,
                       events := s.events ++ [Ev.evSkipAlready a.path] } := by
  constructor
  · simp [indexAssets, h1]
  · simp [dispatchStep, hp, hl, hb, hr, ha]

/-- C7 witness: Scenario A — registry seeded with `a.jpg-100`, candidate
`a.jpg` of size 100 is filtered out by the indexing walk with an
already-uploaded log. -/
theorem known_id_skipped_witness :
    indexAssets ["a.jpg-100"] (fun _ => UploadResult.ok)
      [⟨"a.jpg", "a.jpg", 100⟩] =
      ([], [Ev.evAlreadyUploadedWalk "a.jpg"]) :=
  ((known_id_skipped_without_submit ["a.jpg-100"] (fun _ => UploadResult.ok)
    ⟨"a.jpg", "a.jpg", 100⟩ [] (by decide)
    (initRun ["a.jpg-100"] [⟨"a.jpg-100", "a.jpg", UploadResult.ok⟩])
    ⟨"a.jpg-100", "a.jpg", UploadResult.ok⟩ [] rfl rfl rfl rfl
    (by decide)).1).trans rfl

/-- C10: after a task claims an id and its remote upload fails in any
category, the id stays claimed — the failing step leaves the counter
unchanged, the id survives any further schedule, every later dispatcher
examination of a candidate with that id only logs a skip without
submitting, and every later task re-check for that id skips without a
remote call. -/
theorem claimed_id_persists_after_failure (s : RunState) (i : Nat) (t : Task)
    (sched : List Sched) (hp : s.panicked = false)
    (hget : s.pool[i]? = some t) (hph : t.phase = Phase.pClaim)
    (hfail : t.remote ≠ UploadResult.ok) :
    t.id ∈ (taskStep s i).onLine ∧
    (taskStep (taskStep s i) i).mediaCount = s.mediaCount ∧
    t.id ∈ (run sched (taskStep (taskStep s i) i)).onLine ∧
    (∀ (rs : RunState) (a : Asset) (arest : List Asset), rs.panicked = false →
      rs.loopDone = false → isTripped rs.breaker = false →
      rs.remaining = a :: arest → a.id = t.id → t.id ∈ rs.onLine →
      dispatchStep rs = { rs with
                          remaining := arest,
                          events := rs.events ++ [Ev.evSkipAlready a.path] }) ∧
    (∀ (rs : RunState) (j : Nat) (t2 : Task), rs.panicked = false →
      rs.pool[j]? = some t2 → t2.phase = Phase.pCheck → t2.id = t.id →
      t.id ∈ rs.onLine →
      taskStep rs j = { rs with
                        pool := rs.pool.eraseIdx j,
                        events := rs.events ++ [Ev.evRegCheck t2.id true,
                          Ev.evTaskSkip t2.path] }) := by
  obtain ⟨tid, tpath, trem, tph⟩ := t
  dsimp only at hph hfail ⊢
  subst hph
  have hlen : i < s.pool.length := by
    by_contra hh
    rw [List.getElem?_eq_none (Nat.le_of_not_lt hh)] at hget
    exact absurd hget (by simp)
  have h1 : taskStep s i = { s with
                             onLine := s.onLine ++ [tid],
                             pool := s.pool.set i ⟨tid, tpath, trem, Phase.pRemote⟩,
                             events := s.events ++ [Ev.evRegClaim tid] } := by
    simp [taskStep, hp, hget]
  have h2 : (s.pool.set i (⟨tid, tpath, trem, Phase.pRemote⟩ : Task))[i]? =
      some (⟨tid, tpath, trem, Phase.pRemote⟩ : Task) :=
    List.getElem?_set_eq_of_lt _ hlen
  have hmem : tid ∈ (taskStep s i).onLine := by
    rw [h1]; exact List.mem_append_right _ (List.mem_singleton_self _)
  have h3 : (taskStep (taskStep s i) i).mediaCount = s.mediaCount ∧
      tid ∈ (taskStep (taskStep s i) i).onLine := by
    rw [h1]
    cases trem with
    | ok => exact absurd rfl hfail
    | localFileError => simp [taskStep, hp, h2]
    | unsupportedMedia => simp [taskStep, hp, h2]
    | tooManyInternalError =>
      rcases hcl : closeChan s.breaker with _ | b <;> simp [taskStep, hp, h2, hcl]
    | otherError msg => simp [taskStep, hp, h2]
  refine ⟨hmem, h3.1, run_onLine_mono sched _ tid h3.2, ?_, ?_⟩
  · intro rs a arest hp2 hl2 hb2 hr2 haid hm2
    rw [← haid] at hm2
    simp [dispatchStep, hp2, hl2, hb2, hr2, hm2]
  · intro rs j t2 hp2 hget2 hph2 hid2 hm2
    rw [← hid2] at hm2
    simp [taskStep, hp2, hget2, hph2, hm2]

/-- C10 witness: a concrete claimed id whose upload fails with an
unclassified error stays in the registry. -/
theorem claimed_id_persists_witness :
    "g.jpg-7" ∈ (taskStep failState 0).onLine :=
  (claimed_id_persists_after_failure failState 0 failTask []
    rfl rfl rfl (by decide)).1

end ImmichGo
